import Mathlib

/-!
Verification of the buildandburn orchestration core.

This file gives a shallow embedding, in Lean, of the pure decision logic of
the buildandburn CLI (manifest compilation to Terraform variables, Terraform
module validation, the timeout handler for supervised Terraform runs, the
Terraform error classifier, state-file repair, and the Kubernetes resource
synthesizer), translated from `cli/buildandburn.py`, `cli/buildandburn_backup.py`
and `cli/k8s_generator.py`, followed by theorems about that logic.

Conventions of the embedding:
* Python dicts read with `d.get(k, default)` become `Option` fields with `getD`;
  a key whose mere presence is tested (`'k' in d`) becomes an `Option` field
  (`none` = key absent) or a `Bool` presence flag.
* Python string containment (`needle in hay`) is `pyIn`.
* File-system and process effects are abstracted into explicit inputs/outputs:
  the module directory becomes a list of module names present on disk, the
  state file becomes an optional `Content` value, and functions that write a
  file return the new file value.
* Wall-clock times (Python floats from `time.time()`) are modelled as `ℚ`.
-/

namespace BuildAndBurn

/-- Boolean test that the first character list is an initial segment of the
second; used to build the Python substring test. -/
def chHeadMatch : List Char → List Char → Bool
  | [], _ => true
  | _ :: _, [] => false
  | a :: as, b :: bs => a == b && chHeadMatch as bs

/-- Boolean test that the first character list occurs contiguously inside the
second, at any position. -/
def chSub (needle : List Char) : List Char → Bool
  | [] => needle.isEmpty
  | b :: bs => chHeadMatch needle (b :: bs) || chSub needle bs

/-- Python's `needle in hay` on strings. -/
def pyIn (needle hay : String) : Bool := chSub needle.toList hay.toList

/-- A value stored in the generated `terraform.tfvars.json` map. -/
inductive TfVal where
  | str (s : String)
  | num (n : Int)
  | boolean (b : Bool)
  | strList (l : List String)
deriving DecidableEq

/-- One entry of the manifest's `dependencies:` list.  Per the repository's
own manifest validator (`tools/validate-manifest.py`) the `type` key is
required; every other key is optional configuration. -/
structure ManifestDep where
  type_ : String
  name : Option String := none
  provider : Option String := none
  engine : Option String := none
  version : Option String := none
  instance_class : Option String := none
  instance_type : Option String := none
  storage : Option Int := none
  allocated_storage : Option Int := none
  node_type : Option String := none
  cluster_size : Option Int := none
  auth_enabled : Option Bool := none
  multi_az : Option Bool := none
  auto_minor_version_upgrade : Option Bool := none
  broker_count : Option Int := none
  volume_size : Option Int := none
  monitoring_level : Option String := none
deriving DecidableEq

/-- An environment variable entry of a container spec: either a plain
name/value pair or a `valueFrom.secretKeyRef` reference. -/
inductive EnvVar where
  | plain (name value : String)
  | secretRef (name secretName key : String)
deriving DecidableEq

/-- Name of an environment variable entry. -/
def EnvVar.varName : EnvVar → String
  | .plain n _ => n
  | .secretRef n _ _ => n

/-- One entry of a service's `ports:` list (a Python dict with optional
`port`, `containerPort`, `name`, `protocol` keys). -/
structure ServicePort where
  port : Option Int := none
  containerPort : Option Int := none
  name : Option String := none
  protocol : Option String := none
deriving DecidableEq

/-- The optional `service:` block of a manifest service. -/
structure SvcSpecBlock where
  type_ : Option String := none
  ports : Option (List ServicePort) := none
deriving DecidableEq

/-- A service-level dependency reference: either a bare string or an object
with optional `name` and `type` keys. -/
inductive ServiceDep where
  | str (s : String)
  | obj (name : Option String) (type_ : Option String)
deriving DecidableEq

/-- The optional `ingress:` block of a manifest service. -/
structure SvcIngress where
  enabled : Option Bool := none
  host : Option String := none
  path : Option String := none
  pathType : Option String := none
  port : Option Int := none
deriving DecidableEq

/-- The optional `persistence:` block of a manifest service. -/
structure Persistence where
  enabled : Option Bool := none
  size : Option String := none
  mountPath : Option String := none
  subPath : Option String := none
  storageClass : Option String := none
deriving DecidableEq

/-- A manifest service.  `serviceAccount` is a presence flag because the
generator only tests `'serviceAccount' in service`. -/
structure Service where
  name : String
  image : String
  port : Option Int := none
  replicas : Option Int := none
  env : Option (List EnvVar) := none
  dependencies : Option (List ServiceDep) := none
  ports : Option (List ServicePort) := none
  service_ : Option SvcSpecBlock := none
  ingress : Option SvcIngress := none
  config : Option (List (String × String)) := none
  secrets : Option (List (String × String)) := none
  persistence : Option Persistence := none
  serviceAccount : Bool := false
deriving DecidableEq

/-- One entry of the list form of a manifest-level `ingress:` declaration. -/
structure IngressItem where
  host : Option String := none
deriving DecidableEq

/-- The manifest-level `ingress:` declaration, which the generator accepts
either as a dict (with `enabled`/`domain`) or as a list of items. -/
inductive ManifestIngress where
  | dict (enabled : Option Bool) (domain : Option String)
  | items (l : List IngressItem)
deriving DecidableEq

/-- One component block of the optional `infrastructure:` section. -/
structure InfraComponent where
  enabled : Option Bool := none
  in_cluster : Option Bool := none
  engine : Option String := none
  version : Option String := none
  storage : Option String := none
  node_type : Option String := none
  instance_class : Option String := none
  cluster_size : Option Int := none
  auth_enabled : Option Bool := none
deriving DecidableEq

/-- The optional `infrastructure:` section of a manifest. -/
structure Infrastructure where
  database : Option InfraComponent := none
  message_queue : Option InfraComponent := none
  cache : Option InfraComponent := none
deriving DecidableEq

/-- The operator-authored manifest (the subset of keys the embedded
functions read). -/
structure Manifest where
  name : String
  region : Option String := none
  dependencies : Option (List ManifestDep) := none
  services : Option (List Service) := none
  ingress : Option ManifestIngress := none
  infrastructure : Option Infrastructure := none
  vpc_cidr : Option String := none
  eks_instance_types : Option (List String) := none
  eks_node_min : Option Int := none
  eks_node_max : Option Int := none
  k8s_version : Option String := none
deriving DecidableEq

/-- Dependency-type list extracted at the start of `prepare_terraform_vars`:
`for dep in manifest['dependencies']: dependencies.append(dep['type'])`. -/
def depTypes (m : Manifest) : List String :=
  (m.dependencies.getD []).map (fun d => d.type_)

/-- The database variable block of `prepare_terraform_vars`
(`cli/buildandburn.py`).  When a dependency of type `database` is declared,
`next(...)` always finds its configuration dict, and every field is filled
from it with a built-in default; the `else` branch keeps the defaults. -/
def dbVarsOf (deps : List ManifestDep) : List (String × TfVal) :=
  match deps.find? (fun d => d.type_ == "database") with
  | some c =>
      [("db_engine", .str (c.provider.getD "postgres")),
       ("db_engine_version", .str (c.version.getD "13")),
       ("db_instance_class", .str (c.instance_class.getD "db.t3.small")),
       ("db_allocated_storage", .num (c.storage.getD 20))]
  | none =>
      [("db_engine", .str "postgres"),
       ("db_engine_version", .str "13"),
       ("db_instance_class", .str "db.t3.small"),
       ("db_allocated_storage", .num 20)]

/-- The queue variable block of `prepare_terraform_vars`
(`cli/buildandburn.py`). -/
def mqVarsOf (deps : List ManifestDep) : List (String × TfVal) :=
  match deps.find? (fun d => d.type_ == "queue") with
  | some c =>
      [("mq_engine_type", .str (c.provider.getD "RabbitMQ")),
       ("mq_engine_version", .str (c.version.getD "3.13")),
       ("mq_instance_type", .str (c.instance_class.getD "mq.t3.micro"))]
  | none =>
      [("mq_engine_type", .str "RabbitMQ"),
       ("mq_engine_version", .str "3.13"),
       ("mq_instance_type", .str "mq.t3.micro")]

/-- The Redis variable block of `prepare_terraform_vars`
(`cli/buildandburn.py`). -/
def redisVarsOf (deps : List ManifestDep) : List (String × TfVal) :=
  match deps.find? (fun d => d.type_ == "redis") with
  | some c =>
      [("redis_node_type", .str (c.node_type.getD "cache.t3.micro")),
       ("redis_engine_version", .str (c.version.getD "6.2")),
       ("redis_cluster_size", .num (c.cluster_size.getD 1)),
       ("redis_auth_enabled", .boolean (c.auth_enabled.getD true)),
       ("redis_multi_az_enabled", .boolean (c.multi_az.getD false))]
  | none =>
      [("redis_node_type", .str "cache.t3.micro"),
       ("redis_engine_version", .str "6.2"),
       ("redis_cluster_size", .num 1),
       ("redis_auth_enabled", .boolean true),
       ("redis_multi_az_enabled", .boolean false)]

/-- Embedding of `prepare_terraform_vars` from `cli/buildandburn.py`
(lines 391-472), the Manifest Compiler actually invoked by the CLI.  It
emits the common variables, then the database, queue and Redis blocks when
the corresponding dependency type is declared.  It has no case for the
`kafka` dependency type. -/
def prepare_terraform_vars (m : Manifest) (env_id : String) : List (String × TfVal) :=
  let dependencies := depTypes m
  let deps := m.dependencies.getD []
  let tf0 : List (String × TfVal) :=
    [("project_name", .str m.name),
     ("env_id", .str env_id),
     ("region", .str (m.region.getD "us-west-2")),
     ("dependencies", .strList dependencies),
     ("vpc_cidr", .str "10.0.0.0/16"),
     ("eks_instance_types", .strList ["t3.medium"]),
     ("eks_node_min", .num 1),
     ("eks_node_max", .num 3),
     ("k8s_version", .str "1.27")]
  let tf1 := if "database" ∈ dependencies then tf0 ++ dbVarsOf deps else tf0
  let tf2 := if "queue" ∈ dependencies then tf1 ++ mqVarsOf deps else tf1
  if "redis" ∈ dependencies then tf2 ++ redisVarsOf deps else tf2

/-- The database variable block of the backup copy
(`cli/buildandburn_backup.py`), which reads `engine`/`allocated_storage`
keys and uses different defaults. -/
def dbVarsBackupOf (deps : List ManifestDep) : List (String × TfVal) :=
  match deps.find? (fun d => d.type_ == "database") with
  | some c =>
      [("db_engine", .str (c.engine.getD "postgres")),
       ("db_engine_version", .str (c.version.getD "15")),
       ("db_instance_class", .str (c.instance_class.getD "db.t3.micro")),
       ("db_allocated_storage", .num (c.allocated_storage.getD 20))]
  | none =>
      [("db_engine", .str "postgres"),
       ("db_engine_version", .str "15"),
       ("db_instance_class", .str "db.t3.micro"),
       ("db_allocated_storage", .num 20)]

/-- The queue variable block of the backup copy. -/
def mqVarsBackupOf (deps : List ManifestDep) : List (String × TfVal) :=
  match deps.find? (fun d => d.type_ == "queue") with
  | some c =>
      [("mq_engine_type", .str (c.provider.getD "RabbitMQ")),
       ("mq_engine_version", .str (c.version.getD "3.13")),
       ("mq_instance_type", .str (c.instance_class.getD "mq.t3.micro")),
       ("mq_auto_minor_version_upgrade", .boolean (c.auto_minor_version_upgrade.getD true))]
  | none =>
      [("mq_engine_type", .str "RabbitMQ"),
       ("mq_engine_version", .str "3.13"),
       ("mq_instance_type", .str "mq.t3.micro"),
       ("mq_auto_minor_version_upgrade", .boolean true)]

/-- The Kafka variable block of the backup copy; the live copy has no
counterpart of this block. -/
def kafkaVarsBackupOf (deps : List ManifestDep) : List (String × TfVal) :=
  match deps.find? (fun d => d.type_ == "kafka") with
  | some c =>
      [("kafka_version", .str (c.version.getD "3.4.0")),
       ("kafka_instance_type", .str (c.instance_type.getD "kafka.t3.small")),
       ("kafka_broker_count", .num (c.broker_count.getD 2)),
       ("kafka_volume_size", .num (c.volume_size.getD 100)),
       ("kafka_monitoring_level", .str (c.monitoring_level.getD "DEFAULT"))]
  | none =>
      [("kafka_version", .str "3.4.0"),
       ("kafka_instance_type", .str "kafka.t3.small"),
       ("kafka_broker_count", .num 2),
       ("kafka_volume_size", .num 100),
       ("kafka_monitoring_level", .str "DEFAULT")]

/-- The guard `service.get('ingress', \x7b\x7d).get('enabled', False)`, used
both by the backup Manifest Compiler and by the Kubernetes generator. -/
def svcIngressEnabled (svc : Service) : Bool :=
  match svc.ingress with
  | some ib => ib.enabled.getD false
  | none => false

/-- The ingress-enable decision of the backup copy's `prepare_terraform_vars`
(`cli/buildandburn_backup.py`, lines 420-439): start from `False`; a present
manifest-level `ingress` block whose `enabled` key defaults to `True` turns
it on; any service with `ingress.enabled` turns it on; a manifest with no
`ingress` key at all turns it on.  The backup code calls `.get` on the
block, so this decision is only defined for the dict form. -/
def backupEnableIngress (m : Manifest) : Bool :=
  let e0 := false
  let e1 :=
    match m.ingress with
    | some (.dict en _) => if en.getD true then true else e0
    | some (.items _) => e0
    | none => e0
  let e2 :=
    if (m.services.getD []).any svcIngressEnabled then true else e1
  if m.ingress.isNone then true else e2

/-- Embedding of `prepare_terraform_vars` from `cli/buildandburn_backup.py`
(lines 378-521), the divergent backup copy of the Manifest Compiler.  It
additionally emits the `enable_ingress` flag and a Kafka variable block. -/
def prepare_terraform_vars_backup (m : Manifest) (env_id : String) : List (String × TfVal) :=
  let deps := m.dependencies.getD []
  let dependencies :=
    if m.dependencies.isSome ∧ deps ≠ [] then deps.map (fun d => d.type_) else []
  let tf0 : List (String × TfVal) :=
    [("project_name", .str m.name),
     ("env_id", .str env_id),
     ("region", .str (m.region.getD "us-west-2")),
     ("vpc_cidr", .str (m.vpc_cidr.getD "10.0.0.0/16")),
     ("eks_instance_types", .strList (m.eks_instance_types.getD ["t3.medium"])),
     ("eks_node_min", .num (m.eks_node_min.getD 1)),
     ("eks_node_max", .num (m.eks_node_max.getD 3)),
     ("k8s_version", .str (m.k8s_version.getD "1.27")),
     ("dependencies", .strList dependencies),
     ("enable_ingress", .boolean (backupEnableIngress m))]
  let tf1 := if "database" ∈ dependencies then tf0 ++ dbVarsBackupOf deps else tf0
  let tf2 := if "queue" ∈ dependencies then tf1 ++ mqVarsBackupOf deps else tf1
  let tf3 := if "redis" ∈ dependencies then tf2 ++ redisVarsOf deps else tf2
  if "kafka" ∈ dependencies then tf3 ++ kafkaVarsBackupOf deps else tf3

/-- The list of required Terraform modules built by
`validate_terraform_modules_against_manifest` (`cli/buildandburn.py`,
lines 3800-3821): the core modules `vpc` and `eks`, then `rds`, `mq`,
`elasticache` when the corresponding dependency type is declared.  No other
dependency type (in particular `kafka`) adds a module. -/
def required_modules (dependencies : List String) : List String :=
  ["vpc", "eks"]
    ++ (if "database" ∈ dependencies then ["rds"] else [])
    ++ (if "queue" ∈ dependencies then ["mq"] else [])
    ++ (if "redis" ∈ dependencies then ["elasticache"] else [])

/-- The list of required policy modules built by
`validate_terraform_modules_against_manifest` (`cli/buildandburn.py`,
lines 3822-3835). -/
def required_policy_modules (dependencies : List String) : List String :=
  (if "database" ∈ dependencies then ["eks-to-rds-policy"] else [])
    ++ (if "queue" ∈ dependencies then ["eks-to-mq-policy"] else [])
    ++ (if "redis" ∈ dependencies then ["eks-to-elasticache-policy"] else [])

/-- The Terraform project's module directory, as the validator observes it:
whether `modules/` exists and which module subdirectories are present. -/
structure ModulesDir where
  dirExists : Bool
  present : List String
deriving DecidableEq

/-- Projection of the validator's `validation_results` dict onto the fields
the classification claims are about. -/
structure ValidationResult where
  success : Bool
  modules_required : List String
  modules_missing : List String
  modules_available : List String
  policy_required : List String
  policy_missing : List String
  policy_available : List String
deriving DecidableEq

/-- Embedding of the module-presence and result-classification logic of
`validate_terraform_modules_against_manifest` (`cli/buildandburn.py`,
lines 3749-4074), with the filesystem abstracted to a `ModulesDir`.  When
`modules/` is absent the function returns early with `success = False` and
`modules.missing` set to the whole required list (leaving `modules.required`
empty, as the Python does).  Otherwise `success` is `False` exactly when a
required core/infrastructure module is absent; missing policy modules alone
leave `success = True`. -/
def validate_terraform_modules_against_manifest
    (dependencies : List String) (fs : ModulesDir) : Bool × ValidationResult :=
  let required := required_modules dependencies
  let reqPolicy := required_policy_modules dependencies
  if ¬ fs.dirExists then
    (false,
     { success := false, modules_required := [], modules_missing := required,
       modules_available := [], policy_required := reqPolicy,
       policy_missing := [], policy_available := [] })
  else
    let missing := required.filter (fun mo => ¬ mo ∈ fs.present)
    let available := required.filter (fun mo => mo ∈ fs.present)
    let pmissing := reqPolicy.filter (fun mo => ¬ mo ∈ fs.present)
    let pavailable := reqPolicy.filter (fun mo => mo ∈ fs.present)
    let success := missing.isEmpty
    (success,
     { success := success, modules_required := required, modules_missing := missing,
       modules_available := available, policy_required := reqPolicy,
       policy_missing := pmissing, policy_available := pavailable })

/-- The `up`-command flags consulted by the validation gate in
`provision_infrastructure`. -/
structure UpArgs where
  skip_module_confirmation : Bool
  auto_approve : Bool
deriving DecidableEq

/-- Outcome of the post-validation gate in `provision_infrastructure`. -/
inductive ProvisionDecision where
  | abortMissingCore
  | abortUserDeclined
  | proceed
deriving DecidableEq

/-- Embedding of the decision logic of `provision_infrastructure`
(`cli/buildandburn.py`, lines 906-951) that follows module validation:
abort when validation failed with missing core/infrastructure modules;
when policy modules are missing and module confirmation is not skipped,
warn and proceed only on `auto_approve` or an interactive confirmation
(`userConfirms` stands for the operator answering `y`); in every other
case proceed to auto-fixing and provisioning. -/
def provisionGate (vr : ValidationResult) (valid : Bool) (args : UpArgs)
    (userConfirms : Bool) : ProvisionDecision :=
  if ¬ valid ∧ vr.modules_missing ≠ [] then .abortMissingCore
  else if vr.policy_missing ≠ [] ∧ ¬ args.skip_module_confirmation then
    if args.auto_approve then .proceed
    else if userConfirms then .proceed
    else .abortUserDeclined
  else .proceed

/-- Resource-type substrings for which `handle_terraform_timeout` is willing
to extend a stuck run (`cli/buildandburn.py`, line 4208). -/
def slowResourceTypes : List String := ["eks", "kafka", "mq", "rds", "iam"]

/-- Embedding of `handle_terraform_timeout` (`cli/buildandburn.py`, lines
4175-4225), with the process and log-file effects dropped: the returned pair
is `(should_terminate, last_activity_time)`.  The caller invokes it only
when `current_time - start_time` exceeds the timeout ceiling.  The function
terminates the run unless there was no output activity for more than 300
seconds, some in-flight resource name contains a known slow resource type,
and less than 80% of the ceiling has elapsed. -/
def handle_terraform_timeout (resources : List String)
    (current_time start_time last_activity_time timeout : ℚ) : Bool × ℚ :=
  let elapsed_time := current_time - start_time
  let time_since_last_activity := current_time - last_activity_time
  if 300 < time_since_last_activity then
    let stuck_resources := resources
    if stuck_resources ≠ [] then
      let retry_resources :=
        stuck_resources.filter
          (fun r => slowResourceTypes.any (fun x => pyIn x r.toLower))
      if retry_resources ≠ [] ∧ elapsed_time < timeout * (4 / 5) then
        (false, current_time)
      else (true, last_activity_time)
    else (true, last_activity_time)
  else (true, last_activity_time)

/-- One row of the fixed error-pattern table of `analyze_terraform_errors`. -/
structure ErrInfo where
  diagnosis : String
  suggestion : String
  auto_fixable : Bool
  fix_action : Option String := none
deriving DecidableEq

/-- The fixed `common_error_patterns` table of `analyze_terraform_errors`
(`cli/buildandburn.py`, lines 2478-2531). -/
def common_error_patterns : List (String × ErrInfo) :=
  [("provider configuration not present",
    { diagnosis := "Provider configuration is missing or invalid",
      suggestion := "Check the provider blocks in your Terraform files. Add a proper providers.tf file.",
      auto_fixable := true, fix_action := some "add_provider_config" }),
   ("registry.terraform.io",
    { diagnosis := "Provider registry issue or connectivity problem",
      suggestion := "Try running terraform init -upgrade to refresh provider cache, or check internet connectivity",
      auto_fixable := true, fix_action := some "reinit_upgrade" }),
   ("No value for required variable",
    { diagnosis := "Missing required Terraform variable value",
      suggestion := "Ensure all required variables are set in your tfvars file",
      auto_fixable := true, fix_action := some "check_required_vars" }),
   ("provider configuration block for provider",
    { diagnosis := "Duplicate provider configuration block",
      suggestion := "Remove duplicate provider blocks from your Terraform files",
      auto_fixable := true, fix_action := some "fix_duplicate_providers" }),
   ("Cannot process schema for this provider",
    { diagnosis := "Plugin cache may be corrupted",
      suggestion := "Try clearing the .terraform directory and reinitializing",
      auto_fixable := true, fix_action := some "clear_plugin_cache" }),
   ("Error: error configuring Terraform AWS Provider",
    { diagnosis := "AWS provider configuration issue",
      suggestion := "Check AWS credentials and region configuration",
      auto_fixable := false }),
   ("Error: error validating provider credentials",
    { diagnosis := "AWS credentials are invalid or missing",
      suggestion := "Verify AWS credentials are properly configured",
      auto_fixable := false }),
   ("Invalid block",
    { diagnosis := "Syntax error in Terraform configuration",
      suggestion := "Check for syntax errors like missing brackets or quotes in your Terraform files",
      auto_fixable := true, fix_action := some "auto_format" }),
   ("Unsupported argument",
    { diagnosis := "Using an argument that is not supported by the resource/provider",
      suggestion := "Remove or fix the unsupported argument in your Terraform configuration",
      auto_fixable := false })]

/-- Result record of `analyze_terraform_errors`. -/
structure ErrorAnalysis where
  errors : List String
  suggestions : List String
  auto_fix_possible : Bool
  fix_actions : List String
  error_details : Option (String × String × String) := none
deriving DecidableEq

/-- One inner-loop step of `analyze_terraform_errors`: try one table row
against one line. -/
def analyzeStep (line : String) (st : ErrorAnalysis) (row : String × ErrInfo) :
    ErrorAnalysis :=
  if pyIn row.1 line then
    let info := row.2
    let st1 :=
      { st with
        errors := if info.diagnosis ∈ st.errors then st.errors
                  else st.errors ++ [info.diagnosis],
        suggestions := if info.suggestion ∈ st.suggestions then st.suggestions
                       else st.suggestions ++ [info.suggestion] }
    let st2 :=
      if info.auto_fixable then
        { st1 with
          auto_fix_possible := true,
          fix_actions :=
            if info.fix_action.getD "" ∈ st1.fix_actions then st1.fix_actions
            else st1.fix_actions ++ [info.fix_action.getD ""] }
      else st1
    if st2.error_details.isNone ∧ info.auto_fixable then
      { st2 with error_details := some (row.1, line, info.fix_action.getD "") }
    else st2
  else st

/-- Embedding of `analyze_terraform_errors` (`cli/buildandburn.py`, lines
2473-2566) as it is actually invoked by `provision_infrastructure` (line
1533): the argument is the whole captured stderr *string*, so Python's
`for line in error_output` iterates over its characters, and each `line`
seen by the pattern table is a one-character string. -/
def analyze_terraform_errors (error_output : String) : ErrorAnalysis :=
  let init : ErrorAnalysis :=
    { errors := [], suggestions := [], auto_fix_possible := false,
      fix_actions := [], error_details := none }
  (error_output.toList.map (fun ch => String.mk [ch])).foldl
    (fun st line => common_error_patterns.foldl (analyzeStep line) st) init

/-- A JSON value, as produced by Python's `json.loads`. -/
inductive JVal where
  | jnull
  | jbool (b : Bool)
  | jnum (n : Int)
  | jstr (s : String)
  | jarr (l : List JVal)
  | jobj (fields : List (String × JVal))

mutual

/-- Boolean equality on JSON values. -/
def JVal.beq : JVal → JVal → Bool
  | .jnull, .jnull => true
  | .jbool a, .jbool b => a == b
  | .jnum a, .jnum b => a == b
  | .jstr a, .jstr b => a == b
  | .jarr a, .jarr b => JVal.beqList a b
  | .jobj a, .jobj b => JVal.beqFields a b
  | _, _ => false

/-- Boolean equality on JSON arrays. -/
def JVal.beqList : List JVal → List JVal → Bool
  | [], [] => true
  | a :: as, b :: bs => JVal.beq a b && JVal.beqList as bs
  | _, _ => false

/-- Boolean equality on JSON object field lists. -/
def JVal.beqFields : List (String × JVal) → List (String × JVal) → Bool
  | [], [] => true
  | (k, v) :: as, (k2, v2) :: bs => k == k2 && JVal.beq v v2 && JVal.beqFields as bs
  | _, _ => false

end

instance : BEq JVal := ⟨JVal.beq⟩

/-- Python's `key in value` for a parsed JSON value: key lookup for objects,
membership for arrays, substring for strings, and `none` (a `TypeError`,
caught by the caller's outer `except`) for the remaining scalars. -/
def pyContainsKey (key : String) : JVal → Option Bool
  | .jobj fields => some (fields.any (fun kv => kv.1 == key))
  | .jarr l => some (l.any (fun v => v == .jstr key))
  | .jstr s => some (pyIn key s)
  | _ => none

/-- A state file's content as `ensure_valid_state_file` observes it:
the text after Python's `.strip()`, and the result of `json.loads` on it
(`none` when parsing raises `JSONDecodeError`). -/
structure Content where
  stripped : String
  parsed : Option JVal

/-- The exact text that `create_valid_state_file` writes with
`json.dump(state_content, f, indent=2)`, parameterised by the detected
Terraform version and the generated lineage UUID.  The text begins and ends
with a brace, so stripping it is the identity. -/
def stateFileText (tfVer lineage : String) : String :=
  "\x7b\n  \"version\": 4,\n  \"terraform_version\": \"" ++ tfVer
    ++ "\",\n  \"serial\": 0,\n  \"lineage\": \"" ++ lineage
    ++ "\",\n  \"outputs\": \x7b\x7d,\n  \"resources\": []\n\x7d"

/-- The parsed form of the state object `create_valid_state_file` writes. -/
def stateFileJson (tfVer lineage : String) : JVal :=
  .jobj [("version", .jnum 4),
         ("terraform_version", .jstr tfVer),
         ("serial", .jnum 0),
         ("lineage", .jstr lineage),
         ("outputs", .jobj []),
         ("resources", .jarr [])]

/-- Embedding of `create_valid_state_file` (`cli/buildandburn.py`, lines
3395-3437) on its happy path: the file content it writes.  `tfVer` stands
for the detected (or default `1.0.0`) Terraform version and `lineage` for
the generated UUID; both come from the environment and are passed in. -/
def create_valid_state_file (tfVer lineage : String) : Content :=
  { stripped := stateFileText tfVer lineage,
    parsed := some (stateFileJson tfVer lineage) }

/-- Embedding of `ensure_valid_state_file` (`cli/buildandburn.py`, lines
3353-3392).  The file system is abstracted to `Option Content` (`none` =
file absent); the result is the new file state and the returned boolean
(`true` when the file was created or repaired, `false` when it was left
as-is because it `appears to be valid`). -/
def ensure_valid_state_file (tfVer lineage : String) (file : Option Content) :
    Option Content × Bool :=
  match file with
  | none => (some (create_valid_state_file tfVer lineage), true)
  | some c =>
    if c.stripped = "" ∨ c.stripped = "\x7b\x7d" then
      (some (create_valid_state_file tfVer lineage), true)
    else
      match c.parsed with
      | none => (some (create_valid_state_file tfVer lineage), true)
      | some j =>
        match pyContainsKey "version" j with
        | some true => (some c, false)
        | some false => (some (create_valid_state_file tfVer lineage), true)
        | none => (some (create_valid_state_file tfVer lineage), true)

/-- The structural fields a repaired state file must contain. -/
def requiredStateFields : List String :=
  ["version", "terraform_version", "serial", "lineage", "outputs", "resources"]

/-- A file content is a valid state file when it parses to a JSON object
containing every required structural field. -/
def isValidStateContent (c : Content) : Bool :=
  match c.parsed with
  | some (.jobj fields) =>
      requiredStateFields.all (fun k => fields.any (fun kv => kv.1 == k))
  | _ => false

/-- A synthesized Kubernetes resource, projected onto the fields the claims
are about: `kind`, `metadata.name`, `metadata.namespace`, and (for
workloads) the container environment. -/
structure Resource where
  kind : String
  name : String
  namespace_ : Option String := none
  env : List EnvVar := []
deriving DecidableEq

/-- The `dep_port` resolution of `process_service_dependencies`
(`cli/k8s_generator.py`, lines 87-104): prefer the first entry of the
`service.ports` block carrying a `port` key; otherwise the first entry of
the service's own `ports` list carrying a `port` or `containerPort` key;
default 80. -/
def depPortOf (dep_service : Service) : Int :=
  let viaSvcBlock : Option (List ServicePort) :=
    match dep_service.service_ with
    | some sb =>
        match sb.ports with
        | some ps => if ps ≠ [] then some ps else none
        | none => none
    | none => none
  match viaSvcBlock with
  | some ps =>
      match ps.find? (fun p => p.port.isSome) with
      | some p => p.port.getD 80
      | none => 80
  | none =>
      match dep_service.ports with
      | some ps =>
          if ps ≠ [] then
            match ps.find? (fun p => p.port.isSome || p.containerPort.isSome) with
            | some p =>
                match p.port with
                | some v => v
                | none => p.containerPort.getD 80
            | none => 80
          else 80
      | none => 80

/-- Environment variables injected for a dependency on another in-manifest
service (`cli/k8s_generator.py`, lines 86-130). -/
def serviceDepEnvVars (dep_name : String) (dep_service : Service) (ns : String) :
    List EnvVar :=
  let dep_port := depPortOf dep_service
  let pref := (dep_name.toUpper).replace "-" "_"
  let host := dep_name ++ "." ++ ns ++ ".svc.cluster.local"
  [.plain (pref ++ "_SERVICE_HOST") host,
   .plain (pref ++ "_SERVICE_PORT") (toString dep_port)]
  ++ (if dep_name == "database" || pyIn "database" dep_name then
        [.plain (pref ++ "_DB_NAME") "app",
         .plain (pref ++ "_DB_USER") "postgres",
         .plain (pref ++ "_DB_PASSWORD") "password",
         .plain (pref ++ "_DB_URL")
           ("postgresql://postgres:password@" ++ host ++ ":"
             ++ toString dep_port ++ "/app")]
      else if dep_name == "redis" || pyIn "redis" dep_name then
        [.plain (pref ++ "_URL") ("redis://" ++ host ++ ":" ++ toString dep_port)]
      else if dep_name == "queue" || pyIn "mq" dep_name || pyIn "rabbitmq" dep_name then
        [.plain (pref ++ "_USER") "guest",
         .plain (pref ++ "_PASSWORD") "guest",
         .plain (pref ++ "_URL")
           ("amqp://guest:guest@" ++ host ++ ":" ++ toString dep_port)]
      else [])

/-- Environment variables injected for an infrastructure dependency of the
given resolved type (`cli/k8s_generator.py`, lines 132-156); the values are
the literal `$\x7b...\x7d` placeholder references into the provisioning
output map. -/
def infraDepEnvVars (dep_type : String) : List EnvVar :=
  if dep_type == "database" then
    [.plain "DATABASE_HOST" "$\x7bDATABASE_ENDPOINT\x7d",
     .plain "DATABASE_PORT" "5432",
     .plain "DATABASE_NAME" "$\x7bDATABASE_NAME\x7d",
     .plain "DATABASE_USER" "$\x7bDATABASE_USERNAME\x7d",
     .plain "DATABASE_PASSWORD" "$\x7bDATABASE_PASSWORD\x7d",
     .plain "DATABASE_URL"
       "postgresql://$\x7bDATABASE_USERNAME\x7d:$\x7bDATABASE_PASSWORD\x7d@$\x7bDATABASE_ENDPOINT\x7d:5432/$\x7bDATABASE_NAME\x7d"]
  else if dep_type == "queue" then
    [.plain "RABBITMQ_HOST" "$\x7bMQ_ENDPOINT\x7d",
     .plain "RABBITMQ_PORT" "5672",
     .plain "RABBITMQ_USER" "$\x7bMQ_USERNAME\x7d",
     .plain "RABBITMQ_PASSWORD" "$\x7bMQ_PASSWORD\x7d",
     .plain "RABBITMQ_URL"
       "amqp://$\x7bMQ_USERNAME\x7d:$\x7bMQ_PASSWORD\x7d@$\x7bMQ_ENDPOINT\x7d:5672/"]
  else if dep_type == "redis" then
    [.plain "REDIS_HOST" "$\x7bCACHE_ENDPOINT\x7d",
     .plain "REDIS_PORT" "6379",
     .plain "REDIS_URL" "redis://$\x7bCACHE_ENDPOINT\x7d:6379"]
  else []

/-- The type resolution for one service-level dependency reference
(`cli/k8s_generator.py`, lines 70-83): an object dependency carries its own
`type`; a string dependency is looked up among the manifest dependencies by
their `name` key (not their `type`), taking the first match.  Either lookup
happens only when the manifest dependency list is non-empty. -/
def resolveDepType (dep : ServiceDep) (manifest_dependencies : List ManifestDep) :
    Option String :=
  match dep with
  | .obj _ t => if manifest_dependencies ≠ [] then t else none
  | .str s =>
      if manifest_dependencies ≠ [] then
        (manifest_dependencies.find? (fun md => md.name == some s)).map
          (fun md => md.type_)
      else none

/-- Environment variables contributed by one service-level dependency
reference (`cli/k8s_generator.py`, lines 70-156). -/
def dependency_env_vars (dep : ServiceDep) (service_map : List Service)
    (ns : String) (manifest_dependencies : List ManifestDep) : List EnvVar :=
  let dep_name : Option String :=
    match dep with
    | .str s => some s
    | .obj n _ => n
  let dep_type := resolveDepType dep manifest_dependencies
  match dep_name with
  | some dn =>
      match service_map.find? (fun s => s.name == dn) with
      | some dep_service => serviceDepEnvVars dn dep_service ns
      | none =>
          match dep_type with
          | some t => infraDepEnvVars t
          | none => []
  | none =>
      match dep_type with
      | some t => infraDepEnvVars t
      | none => []

/-- The common identity environment variables appended at the end of
`process_service_dependencies` (`cli/k8s_generator.py`, lines 158-163). -/
def identityEnvVars (svcName ns : String) : List EnvVar :=
  [.plain "APP_NAME" svcName,
   .plain "APP_NAMESPACE" ns,
   .plain "ENV" "development"]

/-- Embedding of `process_service_dependencies` (`cli/k8s_generator.py`,
lines 47-165): the service's declared `env` entries, then the variables of
each dependency reference in order, then the identity variables. -/
def process_service_dependencies (svc : Service) (service_map : List Service)
    (ns : String) (manifest_dependencies : List ManifestDep) : List EnvVar :=
  (svc.env.getD [])
    ++ (svc.dependencies.getD []).flatMap
        (fun d => dependency_env_vars d service_map ns manifest_dependencies)
    ++ identityEnvVars svc.name ns

/-- The container environment assembled by `generate_deployment`
(`cli/k8s_generator.py`, lines 227-304): the service's `env` list, a
`CONFIG_PATH` entry when a `config` block is present, and a `SECRETS_PATH`
entry plus one `secretKeyRef` entry per secret key when a `secrets` block is
present. -/
def deploymentEnv (svc : Service) : List EnvVar :=
  (svc.env.getD [])
    ++ (if svc.config.isSome then [.plain "CONFIG_PATH" "/etc/config"] else [])
    ++ (if svc.secrets.isSome then
          [.plain "SECRETS_PATH" "/etc/secrets"]
            ++ (svc.secrets.getD []).map
                (fun kv => .secretRef kv.1 (svc.name ++ "-secret") kv.1)
        else [])

/-- Projection of `generate_deployment` (`cli/k8s_generator.py`, lines
167-385). -/
def generate_deployment (svc : Service) (ns : String) : Resource :=
  { kind := "Deployment", name := svc.name, namespace_ := some ns,
    env := deploymentEnv svc }

/-- Projection of `generate_service` (`cli/k8s_generator.py`, lines 387-431). -/
def generate_service (svc : Service) (ns : String) : Resource :=
  { kind := "Service", name := svc.name, namespace_ := some ns }

/-- Projection of `generate_ingress` (`cli/k8s_generator.py`, lines 433-516). -/
def generate_ingress (svc : Service) (ns : String) : Option Resource :=
  if ¬ svcIngressEnabled svc then none
  else some { kind := "Ingress", name := svc.name, namespace_ := some ns }

/-- Projection of `generate_configmap` (`cli/k8s_generator.py`, lines 518-537). -/
def generate_configmap (svc : Service) (ns : String) : Option Resource :=
  if svc.config.isNone then none
  else some { kind := "ConfigMap", name := svc.name ++ "-config", namespace_ := some ns }

/-- Projection of `generate_secret` (`cli/k8s_generator.py`, lines 539-559). -/
def generate_secret (svc : Service) (ns : String) : Option Resource :=
  if svc.secrets.isNone then none
  else some { kind := "Secret", name := svc.name ++ "-secret", namespace_ := some ns }

/-- Projection of `generate_persistent_volume_claim` (`cli/k8s_generator.py`,
lines 561-591). -/
def generate_persistent_volume_claim (svc : Service) (ns : String) : Option Resource :=
  if svc.persistence.isNone then none
  else some { kind := "PersistentVolumeClaim", name := svc.name ++ "-data",
              namespace_ := some ns }

/-- Projection of `generate_service_account` (`cli/k8s_generator.py`, lines
593-611). -/
def generate_service_account (svc : Service) (ns : String) : Option Resource :=
  if ¬ svc.serviceAccount then none
  else some { kind := "ServiceAccount", name := svc.name, namespace_ := some ns }

/-- The guard `'persistence' in service and service['persistence'].get('enabled', False)`. -/
def svcPersistenceEnabled (svc : Service) : Bool :=
  match svc.persistence with
  | some p => p.enabled.getD false
  | none => false

/-- The env rewrite applied inside `generate_manifests` before the per-service
resources are generated (`cli/k8s_generator.py`, lines 636-638): only when
the service declares a `dependencies` key is `process_service_dependencies`
run and its result stored as the service's `env`. -/
def processedService (service_map : List Service)
    (manifest_dependencies : List ManifestDep) (ns : String) (svc : Service) :
    Service :=
  if svc.dependencies.isSome then
    { svc with
      env := some (process_service_dependencies svc service_map ns
                    manifest_dependencies) }
  else svc

/-- The resources emitted for one manifest service inside `generate_manifests`
(`cli/k8s_generator.py`, lines 635-691): the deployment, the network
service, and the conditional ingress, config map, secret, PVC and
service-account resources. -/
def serviceResources (service_map : List Service)
    (manifest_dependencies : List ManifestDep) (ns : String) (svc : Service) :
    List Resource :=
  let svc1 := processedService service_map manifest_dependencies ns svc
  [generate_deployment svc1 ns, generate_service svc1 ns]
    ++ (if svc1.ingress.isSome ∧ svcIngressEnabled svc1 then
          (generate_ingress svc1 ns).toList else [])
    ++ (if svc1.config.isSome then (generate_configmap svc1 ns).toList else [])
    ++ (if svc1.secrets.isSome then (generate_secret svc1 ns).toList else [])
    ++ (if svc1.persistence.isSome ∧ svcPersistenceEnabled svc1 then
          (generate_persistent_volume_claim svc1 ns).toList else [])
    ++ (generate_service_account svc1 ns).toList

/-- The dependency-to-infrastructure conversion of `generate_manifests`
(`cli/k8s_generator.py`, lines 697-728), one manifest dependency at a time. -/
def convertDep (inf : Infrastructure) (dep : ManifestDep) : Infrastructure :=
  if dep.type_ == "database" then
    { inf with database := some ({
          enabled := some true,
           engine := some (dep.provider.getD "postgres"),
           version := some (dep.version.getD "13"),
           instance_class := some (dep.instance_class.getD "db.t3.small"),
           storage := some (toString (dep.storage.getD 20) ++ "Gi"),
           in_cluster := some true }) }
  else if dep.type_ == "queue" then
    { inf with message_queue := some ({
          enabled := some true,
           engine := some (dep.provider.getD "rabbitmq"),
           version := some (dep.version.getD "3.9"),
           instance_class := some (dep.instance_class.getD "mq.t3.micro"),
           storage := some "1Gi",
           in_cluster := some true }) }
  else if dep.type_ == "redis" then
    { inf with cache := some ({
          enabled := some true,
           engine := some "redis",
           version := some (dep.version.getD "6.2"),
           node_type := some (dep.node_type.getD "cache.t3.micro"),
           cluster_size := some (dep.cluster_size.getD 1),
           storage := some "1Gi",
           in_cluster := some true }) }
  else inf

/-- The guard `infrastructure[k].get('enabled', False) and
infrastructure[k].get('in_cluster', False)`. -/
def infraComponentActive (c : Option InfraComponent) : Bool :=
  match c with
  | some ic => ic.enabled.getD false && ic.in_cluster.getD false
  | none => false

/-- Projection of `generate_infrastructure_resources` (`cli/k8s_generator.py`,
lines 767-1092): the in-cluster database, message-queue and cache resource
triples, each guarded by the component being enabled, in-cluster, and of the
supported engine. -/
def generate_infrastructure_resources (inf : Infrastructure) (ns : String) :
    List Resource :=
  if inf.database.isNone ∧ inf.message_queue.isNone ∧ inf.cache.isNone then []
  else
    (if infraComponentActive inf.database
        ∧ ((inf.database.getD {}).engine.getD "postgres") == "postgres" then
      [{ kind := "Deployment", name := "database", namespace_ := some ns },
       { kind := "Service", name := "database", namespace_ := some ns },
       { kind := "PersistentVolumeClaim", name := "postgres-data-claim",
         namespace_ := some ns }]
     else [])
    ++ (if infraComponentActive inf.message_queue
          ∧ ((inf.message_queue.getD {}).engine.getD "rabbitmq") == "rabbitmq" then
      [{ kind := "Deployment", name := "queue", namespace_ := some ns },
       { kind := "Service", name := "queue", namespace_ := some ns },
       { kind := "PersistentVolumeClaim", name := "rabbitmq-data-claim",
         namespace_ := some ns }]
     else [])
    ++ (if infraComponentActive inf.cache
          ∧ ((inf.cache.getD {}).engine.getD "redis") == "redis" then
      [{ kind := "Deployment", name := "redis", namespace_ := some ns },
       { kind := "Service", name := "redis", namespace_ := some ns },
       { kind := "PersistentVolumeClaim", name := "redis-data-claim",
         namespace_ := some ns }]
     else [])

/-- Embedding of `generate_manifests` (`cli/k8s_generator.py`, lines
613-765): the namespace resource `bb-<name>`, the per-service resources,
then the infrastructure resources (from the explicit `infrastructure:`
section when present, otherwise converted from the `dependencies:` list). -/
def generate_manifests (m : Manifest) : List Resource :=
  let ns := "bb-" ++ m.name
  let nsRes : Resource := { kind := "Namespace", name := ns, namespace_ := none }
  let svcPart :=
    match m.services with
    | none => []
    | some services =>
        services.flatMap (serviceResources services (m.dependencies.getD []) ns)
  let infrastructure : Infrastructure :=
    match m.infrastructure with
    | some inf => inf
    | none =>
        match m.dependencies with
        | some deps => deps.foldl convertDep {}
        | none => {}
  nsRes :: (svcPart ++ generate_infrastructure_resources infrastructure ns)

/-! ## Concrete inputs used in counterexamples and witnesses -/

/-- The end-to-end demo manifest of the specification: one `database`
dependency (declared, as the repository's own manifest validator requires,
with only its `type` key) and one `api` service referencing the string
`database`. -/
def demoManifest : Manifest :=
  { name := "demo", region := some "us-west-2",
    dependencies := some [{ type_ := "database" }],
    services := some [{ name := "api", image := "demo:1.0", port := some 8080,
                        dependencies := some [.str "database"] }] }

/-- The demo manifest with the declared dependency additionally carrying a
`name` key equal to the string the service references. -/
def demoManifestNamed : Manifest :=
  { name := "demo", region := some "us-west-2",
    dependencies := some [{ type_ := "database", name := some "database" }],
    services := some [{ name := "api", image := "demo:1.0", port := some 8080,
                        dependencies := some [.str "database"] }] }

/-- A manifest whose only service declares no `dependencies` key at all. -/
def webManifest : Manifest :=
  { name := "demo", services := some [{ name := "web", image := "nginx" }] }

/-- A manifest declaring only a `kafka` dependency. -/
def kafkaManifest : Manifest :=
  { name := "demo", region := some "us-west-2",
    dependencies := some [{ type_ := "kafka" }] }

/-! ## Helper lemmas -/

/-- A pattern of at least two characters never occurs inside a one-character
string. -/
theorem pyIn_one_char (p : String) (c : Char) (h : 2 ≤ p.toList.length) :
    pyIn p (String.mk [c]) = false := by
  unfold pyIn
  have hl : (String.mk [c]).toList = [c] := rfl
  rw [hl]
  rcases hp : p.toList with _ | ⟨a, rest⟩
  · rw [hp] at h; simp at h
  · rcases rest with _ | ⟨b, t⟩
    · rw [hp] at h; simp at h
    · simp [chSub, chHeadMatch]

/-- Scanning the whole pattern table against a one-character line changes
nothing: every pattern has at least two characters. -/
theorem analyzeRow_one_char (c : Char) (st : ErrorAnalysis) :
    common_error_patterns.foldl (analyzeStep (String.mk [c])) st = st := by
  have h1 := pyIn_one_char "provider configuration not present" c (by decide)
  have h2 := pyIn_one_char "registry.terraform.io" c (by decide)
  have h3 := pyIn_one_char "No value for required variable" c (by decide)
  have h4 := pyIn_one_char "provider configuration block for provider" c (by decide)
  have h5 := pyIn_one_char "Cannot process schema for this provider" c (by decide)
  have h6 := pyIn_one_char "Error: error configuring Terraform AWS Provider" c (by decide)
  have h7 := pyIn_one_char "Error: error validating provider credentials" c (by decide)
  have h8 := pyIn_one_char "Invalid block" c (by decide)
  have h9 := pyIn_one_char "Unsupported argument" c (by decide)
  simp [common_error_patterns, analyzeStep, h1, h2, h3, h4, h5, h6, h7, h8, h9]

/-- Folding the analyzer over any character sequence leaves the accumulator
unchanged. -/
theorem analyzeFold_id (cs : List Char) (st : ErrorAnalysis) :
    (cs.map (fun ch => String.mk [ch])).foldl
      (fun acc line => common_error_patterns.foldl (analyzeStep line) acc) st = st := by
  induction cs generalizing st with
  | nil => rfl
  | cons c cs ih =>
      simp only [List.map_cons, List.foldl_cons]
      rw [analyzeRow_one_char]
      exact ih st

/-! ## C7 -/

/-- C7: the Error Classifier, as wired to its caller, is dead code.
`provision_infrastructure` passes the whole captured stderr string, so
`for line in error_output` iterates over single characters and no pattern of
the fixed table can ever match: `analyze_terraform_errors` returns empty
diagnosis, suggestion and fix-action lists with the auto-fixability flag
unset for *every* input, including (the second conjunct) an output that
contains the `No value for required variable` pattern verbatim, for which
the claim promises the missing-variable diagnosis and the
`check_required_vars` fix action. -/
theorem analyze_terraform_errors_always_empty :
    (∀ error_output : String,
      analyze_terraform_errors error_output =
        { errors := [], suggestions := [], auto_fix_possible := false,
          fix_actions := [], error_details := none })
    ∧ analyze_terraform_errors "Error: No value for required variable \"project_name\"" =
        { errors := [], suggestions := [], auto_fix_possible := false,
          fix_actions := [], error_details := none } := by
  constructor
  · intro error_output
    unfold analyze_terraform_errors
    exact analyzeFold_id _ _
  · unfold analyze_terraform_errors
    exact analyzeFold_id _ _

/-! ## C4 -/

/-- C4: the timeout handler terminates a run that showed recent activity.
At the concrete failing input the wall-clock ceiling (900s) is exceeded
(elapsed 1000s) while the last output activity was only 100s ago — well
inside the 300-second grace window — yet `handle_terraform_timeout` returns
`should_terminate = true`, contradicting the claim (and the caller's own
comment `check for timeout, but only if there's been no activity for a
while`). -/
theorem handle_terraform_timeout_recent_activity_terminates :
    handle_terraform_timeout ["aws_eks_cluster.main"] 1000 0 900 900 = (true, 900)
    ∧ (1000 : ℚ) - 0 > 900 ∧ (1000 : ℚ) - 900 < 300 := by
  refine ⟨?_, by norm_num, by norm_num⟩
  have h300 : ¬ ((300 : ℚ) < 1000 - 900) := by norm_num
  simp [handle_terraform_timeout, h300]

/-! ## C3 -/

/-- C3 counterexample: a manifest declaring a `kafka` dependency — a member
of the repository's closed dependency-type enumeration — adds neither an
infrastructure module nor a policy module to the validator's required sets:
they are exactly the core modules and the empty policy set, refuting `one
infrastructure module per type in D union one access-policy module per type
in D ... none omitted for any type in D` at D = \x7bkafka\x7d. -/
theorem required_modules_kafka_adds_nothing :
    required_modules ["kafka"] = ["vpc", "eks"]
    ∧ required_policy_modules ["kafka"] = [] := by decide

/-- C3 amended: for dependency types drawn from the set the validator knows
(`database`, `queue`, `redis`), the required-module set is exactly the core
modules `vpc`, `eks` plus one infrastructure module per declared known type,
and the required policy set is exactly one `eks-to-*-policy` module per
declared known type; any other declared type (such as `kafka`) contributes
nothing. -/
theorem required_modules_exact_over_known_types (deps : List String) (mo : String) :
    (mo ∈ required_modules deps ↔
      mo = "vpc" ∨ mo = "eks" ∨ (mo = "rds" ∧ "database" ∈ deps)
        ∨ (mo = "mq" ∧ "queue" ∈ deps) ∨ (mo = "elasticache" ∧ "redis" ∈ deps))
    ∧ (mo ∈ required_policy_modules deps ↔
      (mo = "eks-to-rds-policy" ∧ "database" ∈ deps)
        ∨ (mo = "eks-to-mq-policy" ∧ "queue" ∈ deps)
        ∨ (mo = "eks-to-elasticache-policy" ∧ "redis" ∈ deps)) := by
  unfold required_modules required_policy_modules
  constructor <;> split_ifs <;> simp_all

/-! ## C5 -/

/-- C5 counterexample: with the `--skip-module-confirmation` flag set and
`auto_approve` unset, a validation run whose result has a missing policy
module (here `eks-to-rds-policy`, success flag true) proceeds with the
operator answering nothing (`userConfirms = false`), refuting `proceeds
only after explicit operator confirmation (or auto-approve)`. -/
theorem provisionGate_skip_flag_bypasses_confirmation :
    ((validate_terraform_modules_against_manifest ["database"]
        ⟨true, ["vpc", "eks", "rds"]⟩).2.policy_missing = ["eks-to-rds-policy"])
    ∧ ((validate_terraform_modules_against_manifest ["database"]
        ⟨true, ["vpc", "eks", "rds"]⟩).1 = true)
    ∧ provisionGate
        (validate_terraform_modules_against_manifest ["database"]
          ⟨true, ["vpc", "eks", "rds"]⟩).2
        (validate_terraform_modules_against_manifest ["database"]
          ⟨true, ["vpc", "eks", "rds"]⟩).1
        ⟨true, false⟩ false = .proceed := by decide

/-- C5 amended: the Dependency Validator returns a false success flag
exactly when some required core/infrastructure module is absent from the
module directory, and the controller then aborts before provisioning; when
validation succeeded but policy modules are missing, the controller
proceeds exactly when they are in fact all present, or module confirmation
is skipped by flag, or auto-approve is set, or the operator explicitly
confirms. -/
theorem validation_classification_and_gate (deps : List String) (fs : ModulesDir)
    (hfs : fs.dirExists = false → fs.present = [])
    (vr : ValidationResult) (valid : Bool) (args : UpArgs) (u : Bool) :
    ((validate_terraform_modules_against_manifest deps fs).1 = false ↔
      ∃ mo ∈ required_modules deps, mo ∉ fs.present)
    ∧ (valid = false → vr.modules_missing ≠ [] →
        provisionGate vr valid args u = .abortMissingCore)
    ∧ (valid = true →
        (provisionGate vr valid args u = .proceed ↔
          (vr.policy_missing = [] ∨ args.skip_module_confirmation = true
            ∨ args.auto_approve = true ∨ u = true))) := by
  refine ⟨?_, ?_, ?_⟩
  · by_cases hd : fs.dirExists = true
    · have hval : (validate_terraform_modules_against_manifest deps fs).1 =
          ((required_modules deps).filter (fun mo => ¬ mo ∈ fs.present)).isEmpty := by
        simp [validate_terraform_modules_against_manifest, hd]
      rw [hval]
      simp [List.isEmpty_iff, List.filter_eq_nil_iff]
    · have hp := hfs (by simpa using hd)
      simp only [Bool.not_eq_true] at hd
      simp [validate_terraform_modules_against_manifest, hd, hp]
      exact ⟨"vpc", by simp [required_modules]⟩
  · intro hv hm
    simp [provisionGate, hv, hm]
  · intro hv
    rcases args with ⟨skip, auto⟩
    simp only [provisionGate, hv]
    cases skip <;> cases auto <;> cases u <;>
      by_cases hpm : vr.policy_missing = [] <;>
        simp_all

/-- C5 witness: the amended statement instantiated at a directory holding
only the core modules, a concrete validation result with a missing core
module, and concrete flags. -/
theorem validation_classification_and_gate_witness :
    ((validate_terraform_modules_against_manifest ["database"] ⟨true, ["vpc", "eks"]⟩).1 = false ↔
      ∃ mo ∈ required_modules ["database"], mo ∉ (["vpc", "eks"] : List String))
    ∧ ((false : Bool) = false →
        (⟨false, [], ["rds"], [], [], [], []⟩ : ValidationResult).modules_missing ≠ [] →
        provisionGate ⟨false, [], ["rds"], [], [], [], []⟩ false ⟨false, false⟩ false =
          .abortMissingCore)
    ∧ ((false : Bool) = true →
        (provisionGate ⟨false, [], ["rds"], [], [], [], []⟩ false ⟨false, false⟩ false = .proceed ↔
          ((⟨false, [], ["rds"], [], [], [], []⟩ : ValidationResult).policy_missing = []
            ∨ (⟨false, false⟩ : UpArgs).skip_module_confirmation = true
            ∨ (⟨false, false⟩ : UpArgs).auto_approve = true ∨ (false : Bool) = true))) :=
  validation_classification_and_gate ["database"] ⟨true, ["vpc", "eks"]⟩ (by decide)
    ⟨false, [], ["rds"], [], [], [], []⟩ false ⟨false, false⟩ false

/-! ## C2 -/

/-- C2 counterexample: the live Manifest Compiler has no Kafka case.  For a
manifest declaring a `kafka` dependency — a member of the closed
dependency-type enumeration — the compiled variable map consists of exactly
the nine common keys: the dedicated `kafka_*` subset is entirely missing. -/
theorem prepare_terraform_vars_no_kafka_subset :
    "kafka" ∈ depTypes kafkaManifest
    ∧ (prepare_terraform_vars kafkaManifest "e1").map Prod.fst =
        ["project_name", "env_id", "region", "dependencies", "vpc_cidr",
         "eks_instance_types", "eks_node_min", "eks_node_max", "k8s_version"] := by
  decide

/-- The dedicated variable subset the specification assigns to each
dependency type the live compiler handles. -/
def depVarKeys : String → List String
  | "database" =>
      ["db_engine", "db_engine_version", "db_instance_class", "db_allocated_storage"]
  | "queue" => ["mq_engine_type", "mq_engine_version", "mq_instance_type"]
  | "redis" =>
      ["redis_node_type", "redis_engine_version", "redis_cluster_size",
       "redis_auth_enabled", "redis_multi_az_enabled"]
  | _ => []

/-- C2 amended: the live Manifest Compiler is total over the dependency
types it implements — `database`, `queue` and `redis`: whenever such a type
appears among the manifest's dependency types, every key of its dedicated
variable subset is present in the compiled map (each filled from the first
matching configuration block with a built-in default for every omitted
field, per `dbVarsOf`/`mqVarsOf`/`redisVarsOf`).  The `kafka` member of the
enumeration is compiled only by the divergent backup copy. -/
theorem prepare_terraform_vars_total_over_known_types
    (m : Manifest) (e : String) (t : String)
    (ht : t ∈ (["database", "queue", "redis"] : List String))
    (hm : t ∈ depTypes m) :
    ∀ k ∈ depVarKeys t, k ∈ (prepare_terraform_vars m e).map Prod.fst := by
  have hdb : ∀ deps : List ManifestDep, (dbVarsOf deps).map Prod.fst =
      ["db_engine", "db_engine_version", "db_instance_class", "db_allocated_storage"] := by
    intro deps
    rcases h : deps.find? (fun d => d.type_ == "database") <;> simp [dbVarsOf, h]
  have hmq : ∀ deps : List ManifestDep, (mqVarsOf deps).map Prod.fst =
      ["mq_engine_type", "mq_engine_version", "mq_instance_type"] := by
    intro deps
    rcases h : deps.find? (fun d => d.type_ == "queue") <;> simp [mqVarsOf, h]
  have hrd : ∀ deps : List ManifestDep, (redisVarsOf deps).map Prod.fst =
      ["redis_node_type", "redis_engine_version", "redis_cluster_size",
       "redis_auth_enabled", "redis_multi_az_enabled"] := by
    intro deps
    rcases h : deps.find? (fun d => d.type_ == "redis") <;> simp [redisVarsOf, h]
  intro k hk
  simp only [List.mem_cons, List.not_mem_nil, or_false] at ht
  rcases ht with ht | ht | ht <;> subst ht <;>
    simp only [depVarKeys] at hk <;>
    simp only [prepare_terraform_vars, hm, if_true, if_pos] <;>
    split_ifs <;>
    simp_all [List.map_append, List.mem_append, hdb, hmq, hrd] <;>
    tauto

/-- C2 witness: the amended statement instantiated at the demo manifest and
the `database` type. -/
theorem prepare_terraform_vars_total_witness :
    "db_engine" ∈ (prepare_terraform_vars demoManifest "e1").map Prod.fst :=
  prepare_terraform_vars_total_over_known_types demoManifest "e1" "database"
    (by decide) (by decide) "db_engine" (by decide)

/-! ## C8 -/

/-- C8 counterexample: the live Manifest Compiler emits no ingress-enable
flag at all: for the demo manifest, `enable_ingress` is not among the keys
of the compiled variable map. -/
theorem prepare_terraform_vars_no_ingress_flag :
    "enable_ingress" ∉ (prepare_terraform_vars demoManifest "e1").map Prod.fst := by
  decide

/-- The ingress-enable truth table the specification claims: the
manifest-level ingress block is present and enabled (its `enabled` key
defaulting to on), or some service declares ingress enabled, or the
manifest has no ingress declaration at all. -/
def ingressFlagSpec (m : Manifest) : Bool :=
  (match m.ingress with
   | some (.dict en _) => en.getD true
   | some (.items _) => false
   | none => false)
  || (m.services.getD []).any svcIngressEnabled
  || m.ingress.isNone

/-- C8 amended: it is the divergent backup copy of the Manifest Compiler,
not the live one, whose compiled variable set contains the `enable_ingress`
flag, and its value follows exactly the claimed truth table (stated for
manifests whose ingress declaration is absent or in dict form — the only
forms the backup code can read). -/
theorem prepare_terraform_vars_backup_ingress_flag (m : Manifest) (e : String)
    (hform : ∀ l, m.ingress ≠ some (.items l)) :
    (prepare_terraform_vars_backup m e).lookup "enable_ingress" =
      some (.boolean (ingressFlagSpec m)) := by
  have hflag : backupEnableIngress m = ingressFlagSpec m := by
    unfold backupEnableIngress ingressFlagSpec
    rcases hi : m.ingress with _ | mi
    · simp
    · rcases mi with ⟨en, d⟩ | l
      · cases hen : en.getD true <;>
          cases hany : (m.services.getD []).any svcIngressEnabled <;> simp [hen, hany]
      · exact absurd hi (hform l)
  simp only [prepare_terraform_vars_backup]
  split_ifs <;> simp [List.lookup, hflag]

/-- C8 witness: the amended statement instantiated at a manifest with no
ingress declaration. -/
theorem prepare_terraform_vars_backup_ingress_flag_witness :
    (prepare_terraform_vars_backup webManifest "e1").lookup "enable_ingress" =
      some (.boolean (ingressFlagSpec webManifest)) :=
  prepare_terraform_vars_backup_ingress_flag webManifest "e1"
    (by intro l h; simp [webManifest] at h)

/-! ## C6 -/

/-- The six input classes the state-file repair claim enumerates: file
absent, file empty after stripping, the literal `\x7b\x7d`, non-JSON text,
a JSON object without the `version` field, and an already valid state
file. -/
inductive StateInput : Option Content → Prop where
  | absent : StateInput none
  | empty : StateInput (some ⟨"", none⟩)
  | emptyObj : StateInput (some ⟨"\x7b\x7d", some (.jobj [])⟩)
  | notJson (s : String) (hs : s ≠ "") (hb : s ≠ "\x7b\x7d") :
      StateInput (some ⟨s, none⟩)
  | noVersion (s : String) (fields : List (String × JVal)) (hs : s ≠ "")
      (hb : s ≠ "\x7b\x7d") (hv : ∀ kv ∈ fields, kv.1 ≠ "version") :
      StateInput (some ⟨s, some (.jobj fields)⟩)
  | validFile (s : String) (fields : List (String × JVal)) (hs : s ≠ "")
      (hb : s ≠ "\x7b\x7d")
      (hv : ∀ k ∈ requiredStateFields, ∃ kv ∈ fields, kv.1 = k) :
      StateInput (some ⟨s, some (.jobj fields)⟩)

/-- The created state-file text is neither empty nor the literal
`\x7b\x7d`, whatever version and lineage got spliced in. -/
theorem stateFileText_ne (t l : String) :
    stateFileText t l ≠ "" ∧ stateFileText t l ≠ "\x7b\x7d" := by
  have hA : ("\x7b\n  \"version\": 4,\n  \"terraform_version\": \"" : String).length = 42 := rfl
  have hB : ("\",\n  \"serial\": 0,\n  \"lineage\": \"" : String).length = 32 := rfl
  have hC : ("\",\n  \"outputs\": \x7b\x7d,\n  \"resources\": []\n\x7d" : String).length = 39 := rfl
  have h0 : ("" : String).length = 0 := rfl
  have h2 : ("\x7b\x7d" : String).length = 2 := rfl
  constructor <;> intro h <;> have hl := congrArg String.length h <;>
    simp only [stateFileText, String.length_append, hA, hB, hC, h0, h2] at hl <;>
    omega

/-- The content written by `create_valid_state_file` is a valid state
file. -/
theorem create_valid_state_file_valid (t l : String) :
    isValidStateContent (create_valid_state_file t l) = true := by
  simp [isValidStateContent, create_valid_state_file, stateFileJson, requiredStateFields]

/-- Running `ensure_valid_state_file` on a file that
`create_valid_state_file` just wrote reports it valid and leaves it
unchanged. -/
theorem ensure_on_created (tfV lin t l : String) :
    ensure_valid_state_file tfV lin (some (create_valid_state_file t l)) =
      (some (create_valid_state_file t l), false) := by
  have hne := stateFileText_ne t l
  simp [ensure_valid_state_file, create_valid_state_file, pyContainsKey,
    stateFileJson, hne.1, hne.2]

/-- C6: state-file repair is total and idempotent.  For every input of the
six enumerated classes, one call to `ensure_valid_state_file` leaves at the
path a file that is valid JSON containing all required structural fields
(`version`, `terraform_version`, `serial`, `lineage`, `outputs`,
`resources`), and a second call reports it valid (returns `false`, the
`appears to be valid` path) and leaves its contents unchanged. -/
theorem ensure_valid_state_file_total_idempotent (tfV lin : String)
    (x : Option Content) (hx : StateInput x) :
    ∃ c1, (ensure_valid_state_file tfV lin x).1 = some c1
      ∧ isValidStateContent c1 = true
      ∧ ensure_valid_state_file tfV lin (some c1) = (some c1, false) := by
  cases hx with
  | absent =>
      exact ⟨create_valid_state_file tfV lin, rfl,
        create_valid_state_file_valid tfV lin, ensure_on_created tfV lin tfV lin⟩
  | empty =>
      refine ⟨create_valid_state_file tfV lin, ?_,
        create_valid_state_file_valid tfV lin, ensure_on_created tfV lin tfV lin⟩
      simp [ensure_valid_state_file]
  | emptyObj =>
      refine ⟨create_valid_state_file tfV lin, ?_,
        create_valid_state_file_valid tfV lin, ensure_on_created tfV lin tfV lin⟩
      simp [ensure_valid_state_file]
  | notJson s hs hb =>
      refine ⟨create_valid_state_file tfV lin, ?_,
        create_valid_state_file_valid tfV lin, ensure_on_created tfV lin tfV lin⟩
      simp [ensure_valid_state_file, hs, hb]
  | noVersion s fields hs hb hv =>
      have hany : (fields.any (fun kv => kv.1 == "version")) = false := by
        rw [List.any_eq_false]
        intro kv hkv
        simpa using hv kv hkv
      refine ⟨create_valid_state_file tfV lin, ?_,
        create_valid_state_file_valid tfV lin, ensure_on_created tfV lin tfV lin⟩
      simp [ensure_valid_state_file, hs, hb, pyContainsKey, hany]
  | validFile s fields hs hb hv =>
      have hva : ∀ k ∈ requiredStateFields, (fields.any (fun kv => kv.1 == k)) = true := by
        intro k hk
        rcases hv k hk with ⟨kv, hkv, he⟩
        exact List.any_eq_true.2 ⟨kv, hkv, by simp [he]⟩
      have hvany : (fields.any (fun kv => kv.1 == "version")) = true :=
        hva "version" (by simp [requiredStateFields])
      refine ⟨⟨s, some (.jobj fields)⟩, ?_, ?_, ?_⟩
      · simp [ensure_valid_state_file, hs, hb, pyContainsKey, hvany]
      · simpa [isValidStateContent] using List.all_eq_true.2 hva
      · simp [ensure_valid_state_file, hs, hb, pyContainsKey, hvany]

/-- C6 witness: the repair applied to a concrete non-JSON file. -/
theorem ensure_valid_state_file_witness :
    ∃ c1, (ensure_valid_state_file "1.0.0" "lineage-1" (some ⟨"not json", none⟩)).1 = some c1
      ∧ isValidStateContent c1 = true
      ∧ ensure_valid_state_file "1.0.0" "lineage-1" (some c1) = (some c1, false) :=
  ensure_valid_state_file_total_idempotent "1.0.0" "lineage-1" _
    (StateInput.notJson "not json" (by decide) (by decide))

/-! ## Shared lemmas about the Kubernetes generator -/

/-- The deployment generated for any listed service is among the resources
`generate_manifests` returns. -/
theorem deployment_mem_generate_manifests (m : Manifest) (services : List Service)
    (svc : Service) (hserv : m.services = some services) (hsvc : svc ∈ services) :
    generate_deployment
        (processedService services (m.dependencies.getD []) ("bb-" ++ m.name) svc)
        ("bb-" ++ m.name) ∈ generate_manifests m := by
  simp only [generate_manifests, hserv]
  refine List.mem_cons_of_mem _ (List.mem_append_left _ ?_)
  refine List.mem_flatMap.2 ⟨svc, hsvc, ?_⟩
  unfold serviceResources
  simp

/-- The generated deployment keeps the service's name: the env rewrite of
`processedService` touches only the `env` field. -/
theorem generate_deployment_processed_name (sm : List Service)
    (md : List ManifestDep) (ns : String) (svc : Service) :
    (generate_deployment (processedService sm md ns svc) ns).name = svc.name := by
  unfold generate_deployment processedService
  split <;> rfl

/-! ## C9 -/

/-- C9 counterexample: a service that declares no `dependencies` key is
synthesized with an *empty* container environment — in particular no
`APP_NAME` identity variable — because `generate_manifests` runs
`process_service_dependencies` (which appends the identity variables) only
when the service has a `dependencies` key. -/
theorem generate_manifests_no_identity_without_deps :
    (generate_manifests webManifest).filter (fun r => r.kind == "Deployment") =
      [{ kind := "Deployment", name := "web", namespace_ := some "bb-demo",
         env := [] }]
    ∧ ((generate_manifests webManifest).filter (fun r => r.kind == "Deployment")).all
        (fun r => r.env.all (fun v => v.varName ≠ "APP_NAME")) := by decide

/-- C9 amended: every service that declares a `dependencies` key (even an
empty one) is synthesized with a workload whose environment contains the
identity variables `APP_NAME` (the service name), `APP_NAMESPACE` (the
target namespace `bb-` + manifest name) and `ENV`; services without a
`dependencies` key receive no identity variables. -/
theorem generate_manifests_identity_env (m : Manifest) (services : List Service)
    (svc : Service) (hserv : m.services = some services) (hsvc : svc ∈ services)
    (hdep : svc.dependencies.isSome) :
    ∃ r ∈ generate_manifests m, r.kind = "Deployment" ∧ r.name = svc.name
      ∧ EnvVar.plain "APP_NAME" svc.name ∈ r.env
      ∧ EnvVar.plain "APP_NAMESPACE" ("bb-" ++ m.name) ∈ r.env
      ∧ EnvVar.plain "ENV" "development" ∈ r.env := by
  refine ⟨_, deployment_mem_generate_manifests m services svc hserv hsvc, rfl,
    generate_deployment_processed_name _ _ _ _, ?_, ?_, ?_⟩ <;>
  · show _ ∈ (generate_deployment (processedService _ _ _ _) _).env
    unfold generate_deployment deploymentEnv processedService
    simp only [hdep, if_true]
    refine List.mem_append_left _ (List.mem_append_left _ ?_)
    simp only [Option.getD_some]
    unfold process_service_dependencies
    refine List.mem_append_right _ ?_
    simp [identityEnvVars]

/-- C9 witness: the amended statement instantiated at the demo manifest,
whose `api` service declares dependencies. -/
theorem generate_manifests_identity_env_witness :
    ∃ r ∈ generate_manifests demoManifest,
      r.kind = "Deployment"
      ∧ r.name = ({ name := "api", image := "demo:1.0", port := some 8080,
                    dependencies := some [.str "database"] } : Service).name
      ∧ EnvVar.plain "APP_NAME"
          ({ name := "api", image := "demo:1.0", port := some 8080,
             dependencies := some [.str "database"] } : Service).name ∈ r.env
      ∧ EnvVar.plain "APP_NAMESPACE" ("bb-" ++ demoManifest.name) ∈ r.env
      ∧ EnvVar.plain "ENV" "development" ∈ r.env :=
  generate_manifests_identity_env demoManifest
    [{ name := "api", image := "demo:1.0", port := some 8080,
       dependencies := some [.str "database"] }]
    { name := "api", image := "demo:1.0", port := some 8080,
      dependencies := some [.str "database"] }
    rfl (by decide) (by decide)

/-! ## C1 -/

/-- C1 counterexample: for the exact demo manifest of the claim (dependency
declared as `type: database` with no `name`, service referencing the string
`database`), the synthesized `api` workload's environment contains only the
three identity variables and in particular no `DATABASE_HOST`: the string
reference is looked up among manifest dependencies by their `name` key, not
their `type`, so the type never resolves and nothing is injected. -/
theorem generate_manifests_demo_api_no_database_env :
    (generate_manifests demoManifest).filter
        (fun r => r.kind == "Deployment" && r.name == "api") =
      [{ kind := "Deployment", name := "api", namespace_ := some "bb-demo",
         env := [.plain "APP_NAME" "api", .plain "APP_NAMESPACE" "bb-demo",
                 .plain "ENV" "development"] }]
    ∧ ((generate_manifests demoManifest).filter
        (fun r => r.kind == "Deployment" && r.name == "api")).all
        (fun r => r.env.all (fun v => v.varName ≠ "DATABASE_HOST")) := by decide

/-- A string dependency reference that names no service resolves through
the manifest-dependency *name* lookup and injects the variable block of the
found dependency's type. -/
theorem dependency_env_vars_infra_type (s : String) (service_map : List Service)
    (ns : String) (mdeps : List ManifestDep) (md : ManifestDep)
    (hnos : service_map.find? (fun sv => sv.name == s) = none)
    (hfind : mdeps.find? (fun d => d.name == some s) = some md) :
    dependency_env_vars (.str s) service_map ns mdeps = infraDepEnvVars md.type_ := by
  have hne : mdeps ≠ [] := by
    intro h
    rw [h] at hfind
    simp at hfind
  simp [dependency_env_vars, resolveDepType, hne, hfind, hnos]

/-- C1 amended: for every manifest service declaring a string dependency
whose name matches no other service but does match the `name` key of a
declared manifest dependency whose type is one of the infrastructure types
`database`, `queue` or `redis`, the synthesized workload's environment
includes that type's whole endpoint/credential-reference block (the
provisioning-output placeholder set of `infraDepEnvVars`: `DATABASE_*`,
`RABBITMQ_*` or `REDIS_*` respectively).  With the dependency declared only
by `type`, as in the claim's concrete manifest, nothing is injected (see
the counterexample): the lookup is by `name`, not by `type`. -/
theorem generate_manifests_infra_dep_wiring (m : Manifest)
    (services : List Service) (svc : Service) (sdeps : List ServiceDep)
    (s : String) (md : ManifestDep)
    (hserv : m.services = some services) (hsvc : svc ∈ services)
    (hdeps : svc.dependencies = some sdeps) (hmem : ServiceDep.str s ∈ sdeps)
    (hnos : services.find? (fun sv => sv.name == s) = none)
    (hfind : (m.dependencies.getD []).find? (fun d => d.name == some s) = some md)
    (_htype : md.type_ ∈ (["database", "queue", "redis"] : List String)) :
    ∃ r ∈ generate_manifests m, r.kind = "Deployment" ∧ r.name = svc.name
      ∧ ∀ v ∈ infraDepEnvVars md.type_, v ∈ r.env := by
  refine ⟨_, deployment_mem_generate_manifests m services svc hserv hsvc, rfl,
    generate_deployment_processed_name _ _ _ _, ?_⟩
  intro v hv
  have hdep : svc.dependencies.isSome := by simp [hdeps]
  have hcontrib : dependency_env_vars (.str s) services ("bb-" ++ m.name)
      (m.dependencies.getD []) = infraDepEnvVars md.type_ :=
    dependency_env_vars_infra_type s services _ _ md hnos hfind
  show v ∈ (generate_deployment (processedService _ _ _ _) _).env
  unfold generate_deployment deploymentEnv processedService
  simp only [hdep, if_true]
  refine List.mem_append_left _ (List.mem_append_left _ ?_)
  simp only [Option.getD_some]
  unfold process_service_dependencies
  refine List.mem_append_left _ (List.mem_append_right _ ?_)
  rw [hdeps]
  simp only [Option.getD_some]
  exact List.mem_flatMap.2 ⟨.str s, hmem, by rw [hcontrib]; exact hv⟩

/-- C1 witness: the amended statement instantiated at the demo manifest
whose dependency carries `name: database`. -/
theorem generate_manifests_infra_dep_wiring_witness :
    ∃ r ∈ generate_manifests demoManifestNamed,
      r.kind = "Deployment"
      ∧ r.name = ({ name := "api", image := "demo:1.0", port := some 8080,
                    dependencies := some [.str "database"] } : Service).name
      ∧ ∀ v ∈ infraDepEnvVars "database", v ∈ r.env :=
  generate_manifests_infra_dep_wiring demoManifestNamed
    [{ name := "api", image := "demo:1.0", port := some 8080,
       dependencies := some [.str "database"] }]
    { name := "api", image := "demo:1.0", port := some 8080,
      dependencies := some [.str "database"] }
    [.str "database"] "database"
    { type_ := "database", name := some "database" }
    rfl (by decide) rfl (by decide) (by decide) (by decide) (by decide)

/-! ## C10 -/

/-- Membership in a conditionally included optional singleton pins down the
option value. -/
theorem mem_ite_toList {c : Prop} [Decidable c] {o : Option Resource} {r : Resource}
    (h : r ∈ if c then o.toList else ([] : List Resource)) : o = some r := by
  split at h
  · cases o with
    | none => simp at h
    | some x => simp at h; rw [h]
  · simp at h

/-- Membership in an optional singleton pins down the option value. -/
theorem mem_toList_eq {o : Option Resource} {r : Resource} (h : r ∈ o.toList) :
    o = some r := by
  cases o with
  | none => simp at h
  | some x => simp at h; rw [h]

/-- Fields of a produced ingress resource. -/
theorem generate_ingress_eq_some {svc : Service} {ns : String} {r : Resource}
    (h : generate_ingress svc ns = some r) :
    r.kind ≠ "Namespace" ∧ r.namespace_ = some ns := by
  unfold generate_ingress at h
  split at h
  · exact Option.noConfusion h
  · injection h with h
    subst h
    exact ⟨by simp, rfl⟩

/-- Fields of a produced config-map resource. -/
theorem generate_configmap_eq_some {svc : Service} {ns : String} {r : Resource}
    (h : generate_configmap svc ns = some r) :
    r.kind ≠ "Namespace" ∧ r.namespace_ = some ns := by
  unfold generate_configmap at h
  split at h
  · exact Option.noConfusion h
  · injection h with h
    subst h
    exact ⟨by simp, rfl⟩

/-- Fields of a produced secret resource. -/
theorem generate_secret_eq_some {svc : Service} {ns : String} {r : Resource}
    (h : generate_secret svc ns = some r) :
    r.kind ≠ "Namespace" ∧ r.namespace_ = some ns := by
  unfold generate_secret at h
  split at h
  · exact Option.noConfusion h
  · injection h with h
    subst h
    exact ⟨by simp, rfl⟩

/-- Fields of a produced persistent-volume-claim resource. -/
theorem generate_pvc_eq_some {svc : Service} {ns : String} {r : Resource}
    (h : generate_persistent_volume_claim svc ns = some r) :
    r.kind ≠ "Namespace" ∧ r.namespace_ = some ns := by
  unfold generate_persistent_volume_claim at h
  split at h
  · exact Option.noConfusion h
  · injection h with h
    subst h
    exact ⟨by simp, rfl⟩

/-- Fields of a produced service-account resource. -/
theorem generate_sa_eq_some {svc : Service} {ns : String} {r : Resource}
    (h : generate_service_account svc ns = some r) :
    r.kind ≠ "Namespace" ∧ r.namespace_ = some ns := by
  unfold generate_service_account at h
  split at h
  · exact Option.noConfusion h
  · injection h with h
    subst h
    exact ⟨by simp, rfl⟩

/-- Every resource emitted for one service targets the given namespace and
is never of kind `Namespace`. -/
theorem serviceResources_namespace (sm : List Service) (md : List ManifestDep)
    (ns : String) (svc : Service) (r : Resource)
    (hr : r ∈ serviceResources sm md ns svc) :
    r.kind ≠ "Namespace" ∧ r.namespace_ = some ns := by
  simp only [serviceResources] at hr
  rcases List.mem_append.1 hr with hr | hr
  · rcases List.mem_append.1 hr with hr | hr
    · rcases List.mem_append.1 hr with hr | hr
      · rcases List.mem_append.1 hr with hr | hr
        · rcases List.mem_append.1 hr with hr | hr
          · rcases List.mem_cons.1 hr with h | hr
            · subst h
              exact ⟨by simp [generate_deployment], by simp [generate_deployment]⟩
            · rcases List.mem_cons.1 hr with h | hr
              · subst h
                exact ⟨by simp [generate_service], by simp [generate_service]⟩
              · simp at hr
          · exact generate_ingress_eq_some (mem_ite_toList hr)
        · exact generate_configmap_eq_some (mem_ite_toList hr)
      · exact generate_secret_eq_some (mem_ite_toList hr)
    · exact generate_pvc_eq_some (mem_ite_toList hr)
  · exact generate_sa_eq_some (mem_toList_eq hr)

/-- Every infrastructure-derived resource targets the given namespace and is
never of kind `Namespace`. -/
theorem infraResources_namespace (inf : Infrastructure) (ns : String)
    (r : Resource) (hr : r ∈ generate_infrastructure_resources inf ns) :
    r.kind ≠ "Namespace" ∧ r.namespace_ = some ns := by
  unfold generate_infrastructure_resources at hr
  split_ifs at hr <;> simp at hr <;> casesm* _ ∨ _ <;> simp_all

/-- C10: namespace invariant of the Resource Synthesizer.  Every resource
returned by `generate_manifests` for a manifest named `n` either is the
single `Namespace` resource, whose `metadata.name` is `bb-` + n and which
carries no namespace field, or targets exactly the namespace `bb-` + n; no
resource targeting any other namespace is ever emitted. -/
theorem generate_manifests_namespace_invariant (m : Manifest) (r : Resource)
    (hr : r ∈ generate_manifests m) :
    (r.kind = "Namespace" ∧ r.name = "bb-" ++ m.name ∧ r.namespace_ = none)
    ∨ (r.kind ≠ "Namespace" ∧ r.namespace_ = some ("bb-" ++ m.name)) := by
  simp only [generate_manifests, List.mem_cons, List.mem_append] at hr
  rcases hr with h | h | h
  · subst h
    exact Or.inl ⟨rfl, rfl, rfl⟩
  · rcases hms : m.services with _ | services
    · rw [hms] at h
      simp at h
    · rw [hms] at h
      rcases List.mem_flatMap.1 h with ⟨svc, _, hmem⟩
      exact Or.inr (serviceResources_namespace _ _ _ _ _ hmem)
  · exact Or.inr (infraResources_namespace _ _ _ h)

/-- C10 witness: the invariant instantiated at the demo manifest and its
namespace resource. -/
theorem generate_manifests_namespace_invariant_witness :
    (({ kind := "Namespace", name := "bb-demo", namespace_ := none } : Resource).kind = "Namespace"
      ∧ ({ kind := "Namespace", name := "bb-demo", namespace_ := none } : Resource).name =
          "bb-" ++ demoManifest.name
      ∧ ({ kind := "Namespace", name := "bb-demo", namespace_ := none } : Resource).namespace_ = none)
    ∨ (({ kind := "Namespace", name := "bb-demo", namespace_ := none } : Resource).kind ≠ "Namespace"
      ∧ ({ kind := "Namespace", name := "bb-demo", namespace_ := none } : Resource).namespace_ =
          some ("bb-" ++ demoManifest.name)) :=
  generate_manifests_namespace_invariant demoManifest
    { kind := "Namespace", name := "bb-demo", namespace_ := none } (by decide)

end BuildAndBurn
